import Mathlib

/-!
Shallow embedding of the houdini-downloader client (crates src/api and src/cmd)
and proofs about its authenticated RPC envelope, token lifecycle and the
streaming download pipeline with MD5 integrity verification.

Machine integers (u32/u64) are modelled as Nat with explicit `% 2^32` where
32-bit overflow matters; byte buffers are `List Nat` of values < 256; fallible
operations return `Except`.
-/

namespace HoudiniDl

/-! ## JSON values and serde_json-style compact serialization

Models serde_json::Value restricted to the shapes this client builds
(strings, unsigned integers, booleans, arrays, objects with declared field
order) and Value::to_string(), the compact rendering used by
json!([method, [], parms]).to_string() in src/api/src/lib.rs:238. -/

inductive Json where
  | str (s : String) : Json
  | num (n : Nat) : Json
  | jbool (b : Bool) : Json
  | arr (elems : List Json) : Json
  | obj (fields : List (String × Json)) : Json

/-- Escape of a single character inside a JSON string literal, as serde_json
renders it: quote and backslash get a backslash escape, the common control
characters get their short escapes, other control characters a \u00XX escape. -/
def escapeChar (c : Char) : String :=
  if c = '"' then "\\\""
  else if c = '\\' then "\\\\"
  else if c = '\n' then "\\n"
  else if c = '\r' then "\\r"
  else if c = '\t' then "\\t"
  else if c.toNat = 8 then "\\b"
  else if c.toNat = 12 then "\\f"
  else if c.toNat < 32 then
    "\\u00" ++ String.singleton (Nat.digitChar (c.toNat / 16)) ++
      String.singleton (Nat.digitChar (c.toNat % 16))
  else String.singleton c

/-- JSON string literal: quoted, character-wise escaped. -/
def jsonQuote (s : String) : String :=
  "\"" ++ String.join (s.data.map escapeChar) ++ "\""

mutual

/-- Compact JSON rendering, exactly serde_json Value::to_string (no spaces,
fields in declared order). -/
def Json.render : Json → String
  | .str s => jsonQuote s
  | .num n => toString n
  | .jbool b => if b then "true" else "false"
  | .arr elems => "[" ++ Json.renderElems elems ++ "]"
  | .obj fields => "\x7b" ++ Json.renderFields fields ++ "\x7d"

/-- Comma-separated rendering of array elements. -/
def Json.renderElems : List Json → String
  | [] => ""
  | [x] => Json.render x
  | x :: y :: rest => Json.render x ++ "," ++ Json.renderElems (y :: rest)

/-- Comma-separated rendering of object fields. -/
def Json.renderFields : List (String × Json) → String
  | [] => ""
  | [(k, v)] => jsonQuote k ++ ":" ++ Json.render v
  | (k, v) :: y :: rest =>
      jsonQuote k ++ ":" ++ Json.render v ++ "," ++ Json.renderFields (y :: rest)

end

/-! ## Data model of the api crate (src/api/src/lib.rs) -/

/-- URL of the identity endpoint (src/api/src/lib.rs:8). -/
def ACCESS_TOKEN_URL : String := "https://www.sidefx.com/oauth2/application_token"

/-- URL of the single RPC endpoint (src/api/src/lib.rs:9). -/
def ENDPOINT_URL : String := "https://www.sidefx.com/api"

/-- Error kinds of the api crate (src/api/src/lib.rs:13-18). -/
inductive Kind where
  | AuthError
  | Request
  | Decode
deriving Repr, DecidableEq

/-- ApiError (src/api/src/lib.rs:19-34): a kind plus an optional boxed source
error; the source is modelled by its rendered message string, which is what
Display for ApiError prints (src/api/src/lib.rs:36-47). -/
structure ApiError where
  kind : Kind
  source : Option String
deriving Repr, DecidableEq

/-- AccessToken (src/api/src/lib.rs:76-82): access_token and expires_in come
from the wire; expiry_time is serde-defaulted to 0 and overwritten by
get_access_token_and_expiry_time. Seconds are u64/u32, modelled as Nat. -/
structure AccessToken where
  access_token : String
  expires_in : Nat
  expiry_time : Nat := 0
deriving Repr, DecidableEq

/-- Product (src/api/src/lib.rs:84-91) with its serde lowercase renaming. -/
inductive Product where
  | Houdini
  | HoudiniLauncher
deriving Repr, DecidableEq

/-- Serialization of Product (serde rename_all lowercase, the launcher renamed
to houdini-launcher, src/api/src/lib.rs:86-90). -/
def Product.toJson : Product → Json
  | .Houdini => .str "houdini"
  | .HoudiniLauncher => .str "houdini-launcher"

/-- Platform (src/api/src/lib.rs:93-101) with its serde renaming. -/
inductive Platform where
  | Linux
  | Win64
  | Macos
  | MacosxArm64
deriving Repr, DecidableEq

/-- Serialization of Platform (src/api/src/lib.rs:94-99). -/
def Platform.toJson : Platform → Json
  | .Linux => .str "linux"
  | .Win64 => .str "win64"
  | .Macos => .str "macos"
  | .MacosxArm64 => .str "macosx_arm64"

/-- ListBuildsParms (src/api/src/lib.rs:103-110). -/
structure ListBuildsParms where
  product : Product
  platform : Platform
  version : String
  only_production : Bool
deriving Repr, DecidableEq

/-- serde serialization of ListBuildsParms: object with the fields in
declaration order. -/
def ListBuildsParms.toJson (p : ListBuildsParms) : Json :=
  .obj [("product", p.product.toJson), ("platform", p.platform.toJson),
        ("version", .str p.version), ("only_production", .jbool p.only_production)]

/-- DownloadParms (src/api/src/lib.rs:123-129). -/
structure DownloadParms where
  product : Product
  platform : Platform
  version : String
  build : Nat
deriving Repr, DecidableEq

/-- serde serialization of DownloadParms: object with the fields in
declaration order. -/
def DownloadParms.toJson (p : DownloadParms) : Json :=
  .obj [("product", p.product.toJson), ("platform", p.platform.toJson),
        ("version", .str p.version), ("build", .num p.build)]

/-- EndPoint (src/api/src/lib.rs:131-135). -/
inductive EndPoint where
  | ListBuilds (parms : ListBuildsParms)
  | Download (parms : DownloadParms)

/-- EndPoint::method_and_parms (src/api/src/lib.rs:137-150): the RPC method
name together with the serde_json value of the parameters. -/
def EndPoint.method_and_parms : EndPoint → String × Json
  | .ListBuilds parms => ("download.get_daily_builds_list", parms.toJson)
  | .Download parms => ("download.get_daily_build_download", parms.toJson)

/-! ## HTTP requests made by the client

An HTTP request is modelled by the parts the client sets: target URL, HTTP
Basic credentials, bearer token, and the form-encoded body fields. -/

/-- The observable shape of an HTTP request built by the client. -/
structure HttpRequest where
  url : String
  basic : Option (String × String) := none
  bearer : Option String := none
  form : List (String × String) := []
deriving Repr, DecidableEq

/-- The request sent by get_access_token_and_expiry_time
(src/api/src/lib.rs:157-161): POST to the identity endpoint with HTTP Basic
credentials. -/
def accessTokenRequest (user_id user_secret : String) : HttpRequest :=
  { url := ACCESS_TOKEN_URL, basic := some (user_id, user_secret) }

/-- reqwest StatusCode::is_success: 2xx statuses. -/
def statusIsSuccess (status : Nat) : Bool :=
  200 ≤ status && status < 300

/-- get_access_token_and_expiry_time (src/api/src/lib.rs:152-185), from the
point where the identity endpoint has answered. Inputs: the response status,
the outcome of decoding the response body into an AccessToken (resp.json(),
an external reqwest/serde step, given as an Except whose error is the decode
failure message), and the current unix time in seconds. On a non-2xx status
the body is never decoded; 401/403 yield Kind::AuthError, any other non-2xx
status yields Kind::Request carrying the status. On success the decoded
token's expiry_time is set to now - 2 + expires_in (u64 arithmetic; the code
would underflow for now < 2, so callers live at now >= 2). A decode failure
of resp.json() is a reqwest error, which From<reqwest::Error> maps to
Kind::Request (src/api/src/lib.rs:64-68). -/
def get_access_token_and_expiry_time (status : Nat)
    (decoded : Except String AccessToken) (now : Nat) :
    Except ApiError AccessToken :=
  if ¬ statusIsSuccess status then
    if status = 401 ∨ status = 403 then
      .error { kind := .AuthError,
               source := some "Could not authorize, check user credentials." }
    else
      .error { kind := .Request,
               source := some ("Request error code: " ++ toString status) }
  else
    match decoded with
    | .error e => .error { kind := .Request, source := some e }
    | .ok token => .ok { token with expiry_time := now - 2 + token.expires_in }

/-- SesiClient (src/api/src/lib.rs:187-190): holds the token obtained once at
construction (the reqwest client itself carries no state we model). -/
structure SesiClient where
  token : AccessToken
deriving Repr, DecidableEq

/-- SesiClient::new (src/api/src/lib.rs:193-197): authenticate once, store the
token. Same inputs as get_access_token_and_expiry_time. -/
def SesiClient.new (status : Nat) (decoded : Except String AccessToken)
    (now : Nat) : Except ApiError SesiClient :=
  (get_access_token_and_expiry_time status decoded now).map fun token =>
    { token := token }

/-- The single HTTP request sent by SesiClient::call_api
(src/api/src/lib.rs:236-247): POST to ENDPOINT_URL, bearer auth with the
stored token's access_token, form body with the one field
("json", json!([method, [], parms]).to_string()). -/
def SesiClient.call_api_request (c : SesiClient) (endpoint : EndPoint) :
    HttpRequest :=
  let mp := endpoint.method_and_parms
  let parms := (Json.arr [.str mp.1, .arr [], mp.2]).render
  { url := ENDPOINT_URL,
    bearer := some c.token.access_token,
    form := [("json", parms)] }

/-- All HTTP requests performed during one SesiClient::call_api invocation:
the function body contains exactly one send (src/api/src/lib.rs:239-244) and
in particular never contacts the identity endpoint again — there is no expiry
check and no re-authentication anywhere in call_api. -/
def SesiClient.call_api_requests (c : SesiClient) (endpoint : EndPoint) :
    List HttpRequest :=
  [c.call_api_request endpoint]

/-- All HTTP requests performed by SesiClient::new: the single identity POST
issued by get_access_token_and_expiry_time (src/api/src/lib.rs:157-161). -/
def SesiClient.new_requests (user_id user_secret : String) : List HttpRequest :=
  [accessTokenRequest user_id user_secret]

/-! ## RPC response decoding (src/api/src/lib.rs:199-234)

Build and BuildUrl are the decoded response types; the serde_json decoding of
a response body is an external library step, passed in as a function from the
body to an Except whose error is the serde error message. What the embedding
pins down is how each method wraps a decode failure into an ApiError. -/

/-- Build (src/api/src/lib.rs:250-260). -/
structure Build where
  build : Nat
  date : String
  product : Product
  platform : String
  release : String
  status : String
  version : String
deriving Repr, DecidableEq

/-- BuildUrl (src/api/src/lib.rs:275-281). -/
structure BuildUrl where
  download_url : String
  filename : String
  hash : String
  size : Nat
deriving Repr, DecidableEq

/-- String::from_utf8_lossy over a response body; bodies are modelled as the
strings they spell in UTF-8, on which lossy decoding is the identity. -/
def from_utf8_lossy (body : String) : String := body

/-- Decode stage of SesiClient::list_builds (src/api/src/lib.rs:214):
serde_json::from_slice(&body).map_err(|e| ApiError::new(Kind::Decode, Some(e)))
— the wrapped source is the serde error e, not the body. -/
def list_builds_decode (dec : String → Except String (List Build))
    (body : String) : Except ApiError (List Build) :=
  match dec body with
  | .ok builds => .ok builds
  | .error e => .error { kind := .Decode, source := some e }

/-- Decode stage of SesiClient::get_build_url (src/api/src/lib.rs:232-233):
serde_json::from_slice(&body)
  .map_err(|_| ApiError::new(Kind::Decode, Some(String::from_utf8_lossy(&body))))
— the serde error is discarded and the wrapped source is the lossily decoded
raw body. -/
def get_build_url_decode (dec : String → Except String BuildUrl)
    (body : String) : Except ApiError BuildUrl :=
  match dec body with
  | .ok url => .ok url
  | .error _ => .error { kind := .Decode, source := some (from_utf8_lossy body) }

/-! ## MD5 (the md5 crate used in src/cmd/src/main.rs:7,162)

A faithful RFC 1321 implementation over Nat: 32-bit words are Nats reduced
mod 2^32, bytes are Nats < 256. The streaming interface mirrors the crate:
a state holding the byte count, the < 64-byte pending buffer and the four
registers; update feeds bytes one at a time, compressing each completed
64-byte block; finalize pads and produces the 16-byte digest. -/

/-- 2^32, the word modulus. -/
def w32 : Nat := 4294967296

/-- 32-bit left rotation (inputs < 2^32). -/
def rotl32 (x s : Nat) : Nat :=
  ((x <<< s) ||| (x >>> (32 - s))) % w32

/-- 32-bit bitwise complement (inputs < 2^32). -/
def not32 (x : Nat) : Nat := 4294967295 ^^^ x

/-- Round function F (rounds 0-15). -/
def mdF (b c d : Nat) : Nat := (b &&& c) ||| (not32 b &&& d)

/-- Round function G (rounds 16-31). -/
def mdG (b c d : Nat) : Nat := (d &&& b) ||| (not32 d &&& c)

/-- Round function H (rounds 32-47). -/
def mdH (b c d : Nat) : Nat := b ^^^ c ^^^ d

/-- Round function I (rounds 48-63). -/
def mdI (b c d : Nat) : Nat := c ^^^ (b ||| not32 d)

/-- The 64 sine-derived additive constants of RFC 1321. -/
def kTable : List Nat :=
  [0xd76aa478, 0xe8c7b756, 0x242070db, 0xc1bdceee,
   0xf57c0faf, 0x4787c62a, 0xa8304613, 0xfd469501,
   0x698098d8, 0x8b44f7af, 0xffff5bb1, 0x895cd7be,
   0x6b901122, 0xfd987193, 0xa679438e, 0x49b40821,
   0xf61e2562, 0xc040b340, 0x265e5a51, 0xe9b6c7aa,
   0xd62f105d, 0x02441453, 0xd8a1e681, 0xe7d3fbc8,
   0x21e1cde6, 0xc33707d6, 0xf4d50d87, 0x455a14ed,
   0xa9e3e905, 0xfcefa3f8, 0x676f02d9, 0x8d2a4c8a,
   0xfffa3942, 0x8771f681, 0x6d9d6122, 0xfde5380c,
   0xa4beea44, 0x4bdecfa9, 0xf6bb4b60, 0xbebfbc70,
   0x289b7ec6, 0xeaa127fa, 0xd4ef3085, 0x04881d05,
   0xd9d4d039, 0xe6db99e5, 0x1fa27cf8, 0xc4ac5665,
   0xf4292244, 0x432aff97, 0xab9423a7, 0xfc93a039,
   0x655b59c3, 0x8f0ccc92, 0xffeff47d, 0x85845dd1,
   0x6fa87e4f, 0xfe2ce6e0, 0xa3014314, 0x4e0811a1,
   0xf7537e82, 0xbd3af235, 0x2ad7d2bb, 0xeb86d391]

/-- The per-round left-rotation amounts of RFC 1321. -/
def sTable : List Nat :=
  [7, 12, 17, 22, 7, 12, 17, 22, 7, 12, 17, 22, 7, 12, 17, 22,
   5, 9, 14, 20, 5, 9, 14, 20, 5, 9, 14, 20, 5, 9, 14, 20,
   4, 11, 16, 23, 4, 11, 16, 23, 4, 11, 16, 23, 4, 11, 16, 23,
   6, 10, 15, 21, 6, 10, 15, 21, 6, 10, 15, 21, 6, 10, 15, 21]

/-- The four 32-bit working registers. -/
structure Regs where
  a : Nat
  b : Nat
  c : Nat
  d : Nat
deriving Repr, DecidableEq

/-- Little-endian 32-bit word j of a 64-byte block. -/
def blockWord (block : List Nat) (j : Nat) : Nat :=
  block.getD (4 * j) 0 + 256 * block.getD (4 * j + 1) 0 +
    65536 * block.getD (4 * j + 2) 0 + 16777216 * block.getD (4 * j + 3) 0

/-- One MD5 round i (0 <= i < 64) over a message block. -/
def md5Round (block : List Nat) (r : Regs) (i : Nat) : Regs :=
  let fg : Nat × Nat :=
    if i < 16 then (mdF r.b r.c r.d, i)
    else if i < 32 then (mdG r.b r.c r.d, (5 * i + 1) % 16)
    else if i < 48 then (mdH r.b r.c r.d, (3 * i + 5) % 16)
    else (mdI r.b r.c r.d, (7 * i) % 16)
  let tmp := (fg.1 + r.a + kTable.getD i 0 + blockWord block fg.2) % w32
  { a := r.d, b := (r.b + rotl32 tmp (sTable.getD i 0)) % w32, c := r.b, d := r.c }

/-- MD5 compression: 64 rounds over one 64-byte block, then the feed-forward
addition of the incoming registers. -/
def md5Compress (r : Regs) (block : List Nat) : Regs :=
  let e := (List.range 64).foldl (md5Round block) r
  { a := (r.a + e.a) % w32, b := (r.b + e.b) % w32,
    c := (r.c + e.c) % w32, d := (r.d + e.d) % w32 }

/-- Streaming MD5 state: total bytes fed, pending partial block, registers. -/
structure Md5 where
  len : Nat
  buf : List Nat
  regs : Regs
deriving Repr, DecidableEq

/-- Md5::new (the RFC initial register values). -/
def md5Init : Md5 :=
  { len := 0, buf := [],
    regs := { a := 0x67452301, b := 0xefcdab89, c := 0x98badcfe, d := 0x10325476 } }

/-- Feed one byte: buffer it, compressing when a 64-byte block completes. -/
def md5Step (s : Md5) (byte : Nat) : Md5 :=
  let buf2 := s.buf ++ [byte]
  if buf2.length = 64 then
    { len := s.len + 1, buf := [], regs := md5Compress s.regs buf2 }
  else
    { len := s.len + 1, buf := buf2, regs := s.regs }

/-- Digest::update of the md5 crate: feed a chunk of bytes. -/
def Md5.update (s : Md5) (bytes : List Nat) : Md5 :=
  bytes.foldl md5Step s

/-- x as n little-endian bytes. -/
def leBytes (x n : Nat) : List Nat :=
  (List.range n).map fun j => (x >>> (8 * j)) % 256

/-- RFC 1321 padding for a message of len bytes: 0x80, zeros up to 56 mod 64,
then the bit length as 8 little-endian bytes. -/
def md5Padding (len : Nat) : List Nat :=
  0x80 :: List.replicate ((119 - len % 64) % 64) 0 ++ leBytes (8 * len % 2 ^ 64) 8

/-- Digest::finalize: pad, compress the remaining block(s), serialize the
registers as 16 little-endian bytes. -/
def Md5.digestBytes (s : Md5) : List Nat :=
  let final := s.update (md5Padding s.len)
  leBytes final.regs.a 4 ++ leBytes final.regs.b 4 ++
    leBytes final.regs.c 4 ++ leBytes final.regs.d 4

/-- Lowercase hex digit. -/
def hexDigitChar (n : Nat) : Char :=
  if n < 10 then Char.ofNat (48 + n) else Char.ofNat (87 + n)

/-- hex::encode of a byte list (lowercase, two digits per byte), as used on
the finalized digest in src/cmd/src/main.rs:173. -/
def hexEncode (bytes : List Nat) : String :=
  String.join (bytes.map fun b =>
    String.singleton (hexDigitChar (b / 16 % 16)) ++
      String.singleton (hexDigitChar (b % 16)))

/-- MD5 hex digest of a whole byte list (one update then finalize). -/
def md5Hex (bytes : List Nat) : String :=
  hexEncode (Md5.digestBytes (md5Init.update bytes))

/-! ## The download loop of the Get command (src/cmd/src/main.rs:145-181)

The response byte stream is a finite list of items, each either a received
chunk of bytes (Ok) or a mid-stream transport error (Err). The loop
`while let Some(chunk) = stream.next().await { if let Ok(bytes) = chunk ... }`
processes each Ok item by writing it to the output file, folding it into the
running Md5 and advancing the progress bar by its length — and silently skips
every Err item (the `if let Ok` has no else branch), continuing with the next
item. File writes are modelled as appends to a byte list that always succeed
(a failing write_all would abort main via `?`; that path is outside these
claims). -/

/-- A transport error yielded by the byte stream (its payload is irrelevant
to the loop, which discards it). -/
structure TransportErr where
  message : String := ""
deriving Repr, DecidableEq

/-- State of the download loop: bytes written to the file so far, the running
Md5 hasher, and the byte total reported to the progress bar. -/
structure DlState where
  written : List Nat
  hasher : Md5
  progress : Nat
deriving Repr, DecidableEq

/-- Loop state just before the first iteration (empty file created at
src/cmd/src/main.rs:159, fresh Md5::new at line 162, progress bar at 0). -/
def dlInit : DlState :=
  { written := [], hasher := md5Init, progress := 0 }

/-- One iteration of the chunk loop (src/cmd/src/main.rs:163-171): an Ok chunk
is written, hashed and counted, in that order; an Err item changes nothing. -/
def processChunk (s : DlState) (chunk : Except TransportErr (List Nat)) :
    DlState :=
  match chunk with
  | .ok bytes =>
      { written := s.written ++ bytes,
        hasher := s.hasher.update bytes,
        progress := s.progress + bytes.length }
  | .error _ => s

/-- The whole chunk loop over a finite stream. -/
def downloadLoop (stream : List (Except TransportErr (List Nat))) : DlState :=
  stream.foldl processChunk dlInit

/-- The bytes of the Ok chunks of a stream, in order (Err items contribute
nothing). -/
def okBytes (stream : List (Except TransportErr (List Nat))) : List Nat :=
  (stream.map fun chunk => match chunk with
    | .ok bytes => bytes
    | .error _ => []).flatten

/-- What the Get branch produces once the stream is exhausted
(src/cmd/src/main.rs:172-181): the file contents, the progress total, the
finalized lowercase hex digest, and whether the hash-mismatch warning was
printed (`downloaded_bytes_hash != build_info.hash`, an exact string
comparison). -/
structure GetOutcome where
  written : List Nat
  progress : Nat
  digestHex : String
  hashWarning : Bool
deriving Repr, DecidableEq

/-- The Get branch from the start of the chunk loop to the end of the hash
check, as a fallible computation: an `.error` could only arise from a file
write failure (modelled as never failing); the loop has no other error exit —
in particular a mid-stream transport error never produces one, because the
`if let Ok(bytes) = chunk` at src/cmd/src/main.rs:164 discards Err items.
After the loop, main always proceeds to finalize the digest, print the
warning iff the hex digest differs (exactly) from build_info.hash, and fall
through to Ok(()). -/
def runGet (stream : List (Except TransportErr (List Nat)))
    (build_hash : String) : Except String GetOutcome :=
  let s := downloadLoop stream
  let downloaded_bytes_hash := hexEncode s.hasher.digestBytes
  .ok { written := s.written,
        progress := s.progress,
        digestHex := downloaded_bytes_hash,
        hashWarning := downloaded_bytes_hash != build_hash }

/-- ASCII lowercase of one character (A-Z mapped down, all else kept). -/
def lowerAscii (c : Char) : Char :=
  if 65 ≤ c.toNat ∧ c.toNat ≤ 90 then Char.ofNat (c.toNat + 32) else c

/-- Modelled from the spec: the comparison the spec prescribes for the hash
check, case-insensitive equality of hex strings (spec section 4.4: compare
case-insensitive hex against descriptor.content_hash). Stated here only to be
measured against the exact comparison the code performs. -/
def hexEqCaseInsensitive (a b : String) : Bool :=
  a.data.map lowerAscii == b.data.map lowerAscii

/-! ## Shared lemmas about the streaming hasher and the chunk loop -/

/-- Feeding a concatenation equals feeding the parts in order: the md5 state
steps byte by byte, so update composes over append. -/
theorem Md5.update_append (s : Md5) (a b : List Nat) :
    s.update (a ++ b) = (s.update a).update b := by
  simp [Md5.update, List.foldl_append]

/-- Folding a list of chunks into the hasher is feeding their concatenation. -/
theorem foldl_update_flatten (cs : List (List Nat)) (s : Md5) :
    cs.foldl Md5.update s = s.update cs.flatten := by
  induction cs generalizing s with
  | nil => simp [Md5.update]
  | cons c rest ih => simp [List.flatten_cons, Md5.update_append, ih]

/-- Unfolding okBytes over a leading Ok chunk. -/
theorem okBytes_cons_ok (bytes : List Nat)
    (rest : List (Except TransportErr (List Nat))) :
    okBytes (.ok bytes :: rest) = bytes ++ okBytes rest := by
  simp [okBytes]

/-- Unfolding okBytes over a leading Err item: it contributes nothing. -/
theorem okBytes_cons_error (err : TransportErr)
    (rest : List (Except TransportErr (List Nat))) :
    okBytes (.error err :: rest) = okBytes rest := by
  simp [okBytes]

/-- A stream of only Ok chunks delivers exactly their concatenation. -/
theorem okBytes_map_ok (chunks : List (List Nat)) :
    okBytes (chunks.map Except.ok) = chunks.flatten := by
  induction chunks with
  | nil => simp [okBytes]
  | cons c rest ih => simp [okBytes_cons_ok, ih]

/-- Closed form of the chunk loop from an arbitrary starting state: the Ok
chunks are appended to the file, fed to the hasher and added to the progress
count, in stream order; Err items change nothing. -/
theorem foldl_processChunk (stream : List (Except TransportErr (List Nat)))
    (s : DlState) :
    stream.foldl processChunk s =
      { written := s.written ++ okBytes stream,
        hasher := s.hasher.update (okBytes stream),
        progress := s.progress + (okBytes stream).length } := by
  induction stream generalizing s with
  | nil => simp [okBytes, Md5.update]
  | cons chunk rest ih =>
    cases chunk with
    | ok bytes =>
        simp [processChunk, ih, okBytes_cons_ok, Md5.update_append,
          Nat.add_assoc]
    | error err =>
        simp [processChunk, ih, okBytes_cons_error]

/-- Closed form of the whole download loop. -/
theorem downloadLoop_eq (stream : List (Except TransportErr (List Nat))) :
    downloadLoop stream =
      { written := okBytes stream,
        hasher := md5Init.update (okBytes stream),
        progress := (okBytes stream).length } := by
  simpa [downloadLoop, dlInit] using foldl_processChunk stream dlInit

/-- What runGet returns, in closed form. -/
theorem runGet_eq (stream : List (Except TransportErr (List Nat)))
    (build_hash : String) :
    runGet stream build_hash =
      .ok { written := okBytes stream,
            progress := (okBytes stream).length,
            digestHex := md5Hex (okBytes stream),
            hashWarning := md5Hex (okBytes stream) != build_hash } := by
  simp [runGet, downloadLoop_eq, md5Hex]

/-! ## Claim theorems -/

set_option maxRecDepth 40000

/-- RFC 1321 test vector: the digest of "abc". -/
example : md5Hex [97, 98, 99] = "900150983cd24fb0d6963f7d28e17f72" := by rfl

/-- RFC 1321 test vector: the digest of "message digest". -/
example : md5Hex ("message digest".data.map Char.toNat) =
    "f96b697d7cb7938d525a2f31aaf161d0" := by rfl

/-- Envelope sanity check: the exact form body sent for a list-builds call
with the default parameters of ListBuildsParms::new. -/
example :
    (SesiClient.call_api_request { token := { access_token := "tok", expires_in := 3600 } }
      (.ListBuilds { product := .Houdini, platform := .Linux, version := "19.5",
                     only_production := true })).form =
    [("json", "[\"download.get_daily_builds_list\",[],\x7b\"product\":\"houdini\",\"platform\":\"linux\",\"version\":\"19.5\",\"only_production\":true\x7d]")] := by
  decide

/-- Envelope sanity check: the exact form body sent for a download-url call. -/
example :
    (SesiClient.call_api_request { token := { access_token := "tok", expires_in := 3600 } }
      (.Download { product := .HoudiniLauncher, platform := .MacosxArm64,
                   version := "20.0", build := 547 })).form =
    [("json", "[\"download.get_daily_build_download\",[],\x7b\"product\":\"houdini-launcher\",\"platform\":\"macosx_arm64\",\"version\":\"20.0\",\"build\":547\x7d]")] := by
  decide

/-- C1: the claim says a mid-stream transport error makes the download return
a Transport error (never success) with nothing written after the error. The
code does the opposite: on the stream Ok [1,2], Err, Ok [3] the loop at
src/cmd/src/main.rs:163-171 silently discards the Err item, keeps writing the
chunk that arrives after it, finishes normally and the Get branch succeeds —
the only trace is the hash-mismatch warning flag of the final comparison. -/
theorem c1_transport_error_swallowed :
    runGet
        [.ok [1, 2], .error { message := "connection reset by peer" }, .ok [3]]
        "ffffffffffffffffffffffffffffffff" =
      .ok { written := [1, 2, 3], progress := 3,
            digestHex := "5289df737df57326fcdd22597afb1fac",
            hashWarning := true } := by
  rfl

/-- C3 counterexample: a completed download whose digest equals the
descriptor hash up to ASCII case but not byte-for-byte is reported as a
mismatch (warning printed), because src/cmd/src/main.rs:174 compares with
plain string inequality, not case-insensitively as the claim states. -/
theorem c3_counterexample_uppercase_hash :
    runGet [.ok [1, 2]] "0CB988D042A7F28DD5FE2B55B3F5AC7A" =
      .ok { written := [1, 2], progress := 2,
            digestHex := "0cb988d042a7f28dd5fe2b55b3f5ac7a",
            hashWarning := true } ∧
    hexEqCaseInsensitive "0cb988d042a7f28dd5fe2b55b3f5ac7a"
        "0CB988D042A7F28DD5FE2B55B3F5AC7A" = true := by
  exact ⟨by rfl, by decide⟩

/-- C3 (amended): the finalized digest is hex-encoded in lowercase and
compared to the descriptor hash by exact string equality; there is no
mismatch warning exactly when the two strings are equal byte for byte. -/
theorem c3_hash_compare_is_exact_string_equality
    (stream : List (Except TransportErr (List Nat))) (build_hash : String) :
    ∃ r, runGet stream build_hash = .ok r ∧
      r.digestHex = md5Hex (okBytes stream) ∧
      (r.hashWarning = false ↔ r.digestHex = build_hash) := by
  refine ⟨_, runGet_eq stream build_hash, rfl, ?_⟩
  simp [bne]

/-- C4: a fully consumed stream whose digest differs from the descriptor
hash still succeeds — the Get branch returns Ok, the mismatch surfaces only
as the warning flag, and the destination holds every received byte. -/
theorem c4_hash_mismatch_is_warning_level (chunks : List (List Nat))
    (build_hash : String) (h : md5Hex chunks.flatten ≠ build_hash) :
    ∃ r, runGet (chunks.map Except.ok) build_hash = .ok r ∧
      r.hashWarning = true ∧
      r.written = chunks.flatten ∧
      r.progress = chunks.flatten.length := by
  refine ⟨_, runGet_eq (chunks.map Except.ok) build_hash, ?_, ?_, ?_⟩ <;>
    simp [okBytes_map_ok, bne_iff_ne, h]

/-- Witness for C4 at a concrete input: three bytes, a wrong descriptor
hash. -/
theorem c4_hash_mismatch_witness :
    md5Hex ([[97, 98, 99]] : List (List Nat)).flatten ≠ "deadbeef" ∧
    ∃ r, runGet (([[97, 98, 99]] : List (List Nat)).map Except.ok) "deadbeef" =
        .ok r ∧
      r.hashWarning = true ∧
      r.written = ([[97, 98, 99]] : List (List Nat)).flatten ∧
      r.progress = ([[97, 98, 99]] : List (List Nat)).flatten.length :=
  ⟨by decide, c4_hash_mismatch_is_warning_level [[97, 98, 99]] "deadbeef" (by decide)⟩

/-- C9: the final digest depends only on the concatenated bytes, not on the
chunk boundaries: any two chunkings of the same byte sequence, folded in
order into the streaming hasher, finalize to the same digest. -/
theorem c9_digest_chunking_invariance (cs1 cs2 : List (List Nat))
    (h : cs1.flatten = cs2.flatten) :
    hexEncode ((cs1.foldl Md5.update md5Init).digestBytes) =
      hexEncode ((cs2.foldl Md5.update md5Init).digestBytes) := by
  rw [foldl_update_flatten, foldl_update_flatten, h]

/-- Witness for C9: two different chunkings of the same five bytes. -/
theorem c9_digest_chunking_witness :
    ([[104, 101], [108, 108, 111]] : List (List Nat)).flatten =
      ([[104], [101, 108], [108, 111]] : List (List Nat)).flatten ∧
    hexEncode ((([[104, 101], [108, 108, 111]] : List (List Nat)).foldl
        Md5.update md5Init).digestBytes) =
      hexEncode ((([[104], [101, 108], [108, 111]] : List (List Nat)).foldl
        Md5.update md5Init).digestBytes) :=
  ⟨by decide, c9_digest_chunking_invariance _ _ (by decide)⟩

/-- C10: after every iteration of the chunk loop (every prefix of the
stream), the hasher state is exactly the initial hasher fed with the bytes
written to the file, the progress total equals the number of bytes written,
and the written bytes are the Ok chunks received so far in order — each Ok
chunk is written, hashed and counted exactly once, and skipped Err items
touch none of the three. -/
theorem c10_write_hash_count_invariant
    (stream : List (Except TransportErr (List Nat))) (n : Nat) :
    (downloadLoop (stream.take n)).hasher =
      md5Init.update (downloadLoop (stream.take n)).written ∧
    (downloadLoop (stream.take n)).progress =
      (downloadLoop (stream.take n)).written.length ∧
    (downloadLoop (stream.take n)).written = okBytes (stream.take n) := by
  simp [downloadLoop_eq]

/-- A client whose stored token is already expired (expiry_time 50, while the
ambient clock reads 100). -/
def staleClient : SesiClient :=
  { token := { access_token := "stale-token", expires_in := 7200, expiry_time := 50 } }

/-- A sample RPC invocation. -/
def sampleEndpoint : EndPoint :=
  .ListBuilds { product := .Houdini, platform := .Linux, version := "19.5",
                only_production := true }

/-- C2 counterexample: with a stored token whose expiry_time (50) is at or
before now (100), call_api still performs exactly its one RPC POST — it never
contacts the identity endpoint — and that request bears the stale cached
access_token. The code has no ensure_token: it checks no expiry and never
re-authenticates (src/api/src/lib.rs:236-247). -/
theorem c2_counterexample_expired_token_reused :
    staleClient.token.expiry_time ≤ 100 ∧
    SesiClient.call_api_requests staleClient sampleEndpoint =
      [SesiClient.call_api_request staleClient sampleEndpoint] ∧
    (SesiClient.call_api_request staleClient sampleEndpoint).bearer =
      some "stale-token" ∧
    (SesiClient.call_api_request staleClient sampleEndpoint).url ≠
      ACCESS_TOKEN_URL := by
  exact ⟨by decide, rfl, rfl, by decide⟩

/-- C2 (amended): the client authenticates exactly once, inside
SesiClient::new (one POST to the identity endpoint); afterwards every
call_api invocation issues exactly one request, a POST to the RPC endpoint
carrying the stored access_token as bearer — unconditionally, with no expiry
check and no re-authentication, whatever the clock says. -/
theorem c2_token_used_unconditionally (c : SesiClient) (e : EndPoint)
    (user_id user_secret : String) :
    SesiClient.call_api_requests c e = [c.call_api_request e] ∧
    (c.call_api_request e).url = ENDPOINT_URL ∧
    (c.call_api_request e).bearer = some c.token.access_token ∧
    (c.call_api_request e).basic = none ∧
    SesiClient.new_requests user_id user_secret =
      [accessTokenRequest user_id user_secret] := by
  exact ⟨rfl, rfl, rfl, rfl, rfl⟩

/-- C5: dispatch on the identity endpoint's response status
(src/api/src/lib.rs:163-184): 401/403 yield the AuthError (and SesiClient::new
establishes no client); any other non-2xx status yields a Request error whose
message carries that status; on a non-2xx status the body is never decoded
(the result does not depend on the decode outcome); only on a 2xx status is
the body decoded into a token. -/
theorem c5_identity_status_dispatch (status : Nat)
    (decoded : Except String AccessToken) (now : Nat) :
    ((status = 401 ∨ status = 403) →
      get_access_token_and_expiry_time status decoded now =
        .error { kind := .AuthError,
                 source := some "Could not authorize, check user credentials." } ∧
      SesiClient.new status decoded now =
        .error { kind := .AuthError,
                 source := some "Could not authorize, check user credentials." }) ∧
    (statusIsSuccess status = false → status ≠ 401 → status ≠ 403 →
      get_access_token_and_expiry_time status decoded now =
        .error { kind := .Request,
                 source := some ("Request error code: " ++ toString status) }) ∧
    (statusIsSuccess status = false →
      ∀ d2 : Except String AccessToken,
        get_access_token_and_expiry_time status decoded now =
          get_access_token_and_expiry_time status d2 now) ∧
    (statusIsSuccess status = true →
      (∀ token : AccessToken,
        get_access_token_and_expiry_time status (.ok token) now =
          .ok { token with expiry_time := now - 2 + token.expires_in }) ∧
      (∀ e : String,
        get_access_token_and_expiry_time status (.error e) now =
          .error { kind := .Request, source := some e })) := by
  refine ⟨?_, ?_, ?_, ?_⟩
  · rintro (rfl | rfl) <;> exact ⟨rfl, rfl⟩
  · intro hs h1 h2
    simp [get_access_token_and_expiry_time, hs, h1, h2]
  · intro hs d2
    by_cases h : status = 401 ∨ status = 403 <;>
      simp [get_access_token_and_expiry_time, hs, h]
  · intro hs
    constructor <;> intro x <;> simp [get_access_token_and_expiry_time, hs]

/-- Witness for C5 at status 403: the AuthError comes back and no client is
built. -/
theorem c5_identity_status_witness :
    get_access_token_and_expiry_time 403 (.error "boom") 1000 =
      .error { kind := .AuthError,
               source := some "Could not authorize, check user credentials." } ∧
    SesiClient.new 403 (.error "boom") 1000 =
      .error { kind := .AuthError,
               source := some "Could not authorize, check user credentials." } :=
  (c5_identity_status_dispatch 403 (.error "boom") 1000).1 (Or.inr rfl)

/-- Rendering of the RPC envelope value json!([method, [], parms]): the
serialized string is the bracketed, comma-separated triple of the quoted
method name, the empty array and the rendered parameters. -/
theorem render_envelope (m : String) (p : Json) :
    (Json.arr [.str m, .arr [], p]).render =
      "[" ++ jsonQuote m ++ ",[]," ++ p.render ++ "]" := by
  have h : ("," : String) ++ ("[]," ++ (p.render ++ "]")) =
      ",[]," ++ (p.render ++ "]") := by
    rw [← String.append_assoc]
    rfl
  simp [Json.render, Json.renderElems, String.append_assoc, h]

/-- C6: every call_api request is a POST to the single fixed endpoint URL,
carries Authorization: Bearer with the stored token, and its form body is
exactly one field named json whose value is the JSON array [method, [], parms]
serialized to a string (src/api/src/lib.rs:236-247). -/
theorem c6_rpc_envelope (c : SesiClient) (e : EndPoint) :
    (c.call_api_request e).url = ENDPOINT_URL ∧
    (c.call_api_request e).basic = none ∧
    (c.call_api_request e).bearer = some c.token.access_token ∧
    (c.call_api_request e).form =
      [("json", "[" ++ jsonQuote e.method_and_parms.1 ++ ",[]," ++
        e.method_and_parms.2.render ++ "]")] := by
  refine ⟨rfl, rfl, rfl, ?_⟩
  simp [SesiClient.call_api_request, render_envelope]

/-- The serde_json message for a body that is not JSON at all. -/
def serdeNoJsonMsg : String := "expected value at line 1 column 1"

/-- A decoder outcome modelling serde_json::from_slice for Vec of Build on a
non-JSON body: fails with the parser's message (which never spells the body
itself back). -/
def failingBuildsDec : String → Except String (List Build) :=
  fun _ => .error serdeNoJsonMsg

/-- The analogous failing decoder for BuildUrl. -/
def failingUrlDec : String → Except String BuildUrl :=
  fun _ => .error serdeNoJsonMsg

/-- C7 counterexample: on a decode failure, list_builds wraps the serde error
message as the Decode error's source (src/api/src/lib.rs:214) — the raw
response body is dropped, contradicting the claim that both methods carry the
body. -/
theorem c7_counterexample_list_builds_drops_body :
    list_builds_decode failingBuildsDec "<html>internal server error</html>" =
      .error { kind := .Decode, source := some serdeNoJsonMsg } ∧
    serdeNoJsonMsg ≠ "<html>internal server error</html>" :=
  ⟨rfl, by decide⟩

/-- C7 (amended): on a response body that fails to decode, get_build_url
(ResolveDownload) returns a Decode error carrying the raw body (lossily
decoded, src/api/src/lib.rs:232-233), while list_builds returns a Decode
error carrying the serde error message instead of the body. -/
theorem c7_decode_error_payloads (decL : String → Except String (List Build))
    (decU : String → Except String BuildUrl) (body e1 e2 : String)
    (h1 : decL body = .error e1) (h2 : decU body = .error e2) :
    list_builds_decode decL body =
      .error { kind := .Decode, source := some e1 } ∧
    get_build_url_decode decU body =
      .error { kind := .Decode, source := some (from_utf8_lossy body) } := by
  constructor <;> simp [list_builds_decode, get_build_url_decode, h1, h2]

/-- Witness for C7 (amended) on a concrete failing body. -/
theorem c7_decode_error_payloads_witness :
    list_builds_decode failingBuildsDec "bad body" =
      .error { kind := .Decode, source := some serdeNoJsonMsg } ∧
    get_build_url_decode failingUrlDec "bad body" =
      .error { kind := .Decode, source := some (from_utf8_lossy "bad body") } :=
  ⟨(c7_decode_error_payloads failingBuildsDec failingUrlDec "bad body"
      serdeNoJsonMsg serdeNoJsonMsg rfl rfl).1,
   (c7_decode_error_payloads failingBuildsDec failingUrlDec "bad body"
      serdeNoJsonMsg serdeNoJsonMsg rfl rfl).2⟩

/-- C8: on a successful identity response the token's expiry is stamped as
now - 2 + expires_in (src/api/src/lib.rs:178-183), i.e. now + expires_in
minus a fixed positive two-second skew, hence strictly less than
now + expires_in (u64 arithmetic, so the ambient clock is at least 2). -/
theorem c8_expiry_two_second_skew (status now : Nat) (token : AccessToken)
    (hs : statusIsSuccess status = true) (hnow : 2 ≤ now) :
    ∃ t, get_access_token_and_expiry_time status (.ok token) now = .ok t ∧
      t.access_token = token.access_token ∧
      t.expires_in = token.expires_in ∧
      t.expiry_time = now + token.expires_in - 2 ∧
      t.expiry_time < now + token.expires_in := by
  refine ⟨{ token with expiry_time := now - 2 + token.expires_in },
    ?_, rfl, rfl, ?_, ?_⟩
  · simp [get_access_token_and_expiry_time, hs]
  · show now - 2 + token.expires_in = now + token.expires_in - 2
    omega
  · show now - 2 + token.expires_in < now + token.expires_in
    omega

/-- Witness for C8 at a concrete success response. -/
theorem c8_expiry_two_second_skew_witness :
    statusIsSuccess 200 = true ∧ 2 ≤ 1700000000 ∧
    ∃ t, get_access_token_and_expiry_time 200
        (.ok { access_token := "tok", expires_in := 3600 }) 1700000000 = .ok t ∧
      t.access_token = ({ access_token := "tok", expires_in := 3600 : AccessToken }).access_token ∧
      t.expires_in = ({ access_token := "tok", expires_in := 3600 : AccessToken }).expires_in ∧
      t.expiry_time = 1700000000 + ({ access_token := "tok", expires_in := 3600 : AccessToken }).expires_in - 2 ∧
      t.expiry_time < 1700000000 + ({ access_token := "tok", expires_in := 3600 : AccessToken }).expires_in :=
  ⟨by decide, by decide,
   c8_expiry_two_second_skew 200 1700000000
     { access_token := "tok", expires_in := 3600 } (by decide) (by decide)⟩

end HoudiniDl
